import Mathlib

/-!
Verification of the ctest single-header test harness (src/inc/ctest/ctest.h).

The embedding is shallow: C functions become Lean functions, and output to
stdout / stderr is made explicit as lists of structured lines.  Counters are
modelled as Int (C int; the harness never reaches overflow-relevant values,
and the claims are about exact small counts).  Console colour escape codes and
exact byte formatting are kept out of the structured lines; the textual form
of the final summary, which one claim quotes literally, is rendered by
summaryText below following the printf format string with the colour codes
stripped.
-/

namespace Ctest

/-- One diagnostic emitted to stderr by ctest__assert when an assertion fails.
The fields are exactly the data the fprintf/vfprintf pair at ctest.h:117-121
interpolates: file, line, enclosing test name, the literal condition text
(the stringified condition argument) and the formatted optional message. -/
structure Diagnostic where
  file : String
  line : Int
  test_name : String
  expression : String
  msg : String
deriving Repr, DecidableEq

/-- ctest.h:107-123.  static bool ctest__assert(bool result, const char
*expression, const char *file, const char *test_name, const int line, const
char *msg, ...): if result is true it returns true and prints nothing;
otherwise it prints one diagnostic block to stderr (file, line, test name,
expression, formatted message) and returns false.  The second component of
the pair is the list of diagnostics written to stderr by the call. -/
def ctest__assert (result : Bool) (expression file test_name : String)
    (line : Int) (msg : String) : Bool × List Diagnostic :=
  if result then
    (true, [])
  else
    (false, [⟨file, line, test_name, expression, msg⟩])

/-- ctest.h:40-41.  CTEST_ASSERT(condition): failed_assertions +=
!ctest__assert((condition), #condition, __FILE__, __FUNCTION__, __LINE__, "")
? 1 : 0.  Takes the current value of the local counter failed_assertions and
returns its new value together with the stderr output of the call. -/
def CTEST_ASSERT (failed_assertions : Int) (condition : Bool)
    (condText file test_name : String) (line : Int) : Int × List Diagnostic :=
  let r := ctest__assert condition condText file test_name line ""
  (failed_assertions + (if !r.fst then 1 else 0), r.snd)

/-- ctest.h:48-50.  CTEST_ASSERT_MSG(condition, msg, ...): same as
CTEST_ASSERT but forwards the custom message to ctest__assert. -/
def CTEST_ASSERT_MSG (failed_assertions : Int) (condition : Bool)
    (condText file test_name : String) (line : Int) (msg : String) :
    Int × List Diagnostic :=
  let r := ctest__assert condition condText file test_name line msg
  (failed_assertions + (if !r.fst then 1 else 0), r.snd)

/-- C strcmp restricted to what the header uses: strcmp(a,b) == 0 iff the
strings are equal; otherwise the sign follows lexicographic order. -/
def strcmp (a b : String) : Int :=
  if a = b then 0 else if a < b then -1 else 1

/-- Stringification of the condition produced by CTEST_ASSERT_EQ(a, b):
#condition for (a) == (b), with ta and tb the literal source texts of the
two macro arguments. -/
def eqCondText (ta tb : String) : String :=
  "(" ++ ta ++ ") == (" ++ tb ++ ")"

/-- Stringification of the condition produced by CTEST_ASSERT_EQ_STR(a, b):
#condition for strcmp((a), (b)) == 0. -/
def strCondText (ta tb : String) : String :=
  "strcmp((" ++ ta ++ "), (" ++ tb ++ ")) == 0"

/-- ctest.h:56.  CTEST_ASSERT_EQ(a, b) expands to CTEST_ASSERT((a) == (b)). -/
def CTEST_ASSERT_EQ (failed_assertions a b : Int) (ta tb file test_name : String)
    (line : Int) : Int × List Diagnostic :=
  CTEST_ASSERT failed_assertions (a == b) (eqCondText ta tb) file test_name line

/-- ctest.h:61.  CTEST_ASSERT_EQ_MSG(a, b, msg, ...) expands to
CTEST_ASSERT_MSG((a) == (b), msg, ...). -/
def CTEST_ASSERT_EQ_MSG (failed_assertions a b : Int) (ta tb file test_name : String)
    (line : Int) (msg : String) : Int × List Diagnostic :=
  CTEST_ASSERT_MSG failed_assertions (a == b) (eqCondText ta tb) file test_name line msg

/-- ctest.h:66.  CTEST_ASSERT_EQ_STR(a, b) expands to
CTEST_ASSERT(strcmp((a), (b)) == 0). -/
def CTEST_ASSERT_EQ_STR (failed_assertions : Int) (a b ta tb file test_name : String)
    (line : Int) : Int × List Diagnostic :=
  CTEST_ASSERT failed_assertions (strcmp a b == 0) (strCondText ta tb) file test_name line

/-- ctest.h:71.  CTEST_ASSERT_EQ_STR_MSG(a, b, msg, ...) expands to
CTEST_ASSERT_MSG(strcmp((a), (b)) == 0, msg, ...). -/
def CTEST_ASSERT_EQ_STR_MSG (failed_assertions : Int) (a b ta tb file test_name : String)
    (line : Int) (msg : String) : Int × List Diagnostic :=
  CTEST_ASSERT_MSG failed_assertions (strcmp a b == 0) (strCondText ta tb) file test_name line msg

/-- One assertion call appearing in a test body: the already-evaluated
condition together with the compile-time context the macro captures
(#condition, __FILE__, __LINE__, and the optional formatted message;
a plain CTEST_ASSERT carries msg = ""). -/
structure AssertCall where
  cond : Bool
  expression : String
  file : String
  line : Int
  msg : String
deriving Repr, DecidableEq

/-- Executing one assertion call of a test body: thread the local counter
failed_assertions through CTEST_ASSERT_MSG and accumulate the stderr
output.  __FUNCTION__ inside the body is the generated test function, so
test_name is the enclosing test name. -/
def runAssertion (test_name : String) (st : Int × List Diagnostic)
    (a : AssertCall) : Int × List Diagnostic :=
  let r := CTEST_ASSERT_MSG st.fst a.cond a.expression a.file test_name a.line a.msg
  (r.fst, st.snd ++ r.snd)

/-- ctest.h:75-80.  CTEST_TEST(name, ...) generates
static int test_name(void) { int failed_assertions = 0; body;
return failed_assertions; }.  A body, for the purposes of the claims, is a
sequence of assertion calls executed in order; the function returns the
final counter together with everything the body wrote to stderr. -/
def CTEST_TEST (test_name : String) (body : List AssertCall) :
    Int × List Diagnostic :=
  body.foldl (runAssertion test_name) (0, [])

/-- The diagnostic a failing assertion call inside test test_name produces. -/
def diagOf (test_name : String) (a : AssertCall) : Diagnostic :=
  ⟨a.file, a.line, test_name, a.expression, a.msg⟩

/-- What the runner observes of one registered test: its name (stringified
by the ADD macro) and the int returned by calling test_name(). -/
structure TestResult where
  name : String
  ret : Int
deriving Repr, DecidableEq

/-- The structured console lines of ctest__run_tests, in the order they are
printed.  info is the startup line with the total count; testFailed and
testPassed are the per-test lines of the expanded ADD blocks; summary
carries the three printf arguments fail_test_count, pass_test_count,
test_count; startAt and duration are the timing lines. -/
inductive OutputLine where
  | info (total : Int)
  | testFailed (name : String) (failed_assertions : Int)
  | testPassed (name : String)
  | summary (failed passed total : Int)
  | startAt
  | duration (secs : Int)
deriving Repr, DecidableEq

/-- The per-test ADD block, ctest.h:144-155: call the test, and if the
returned failed_assertions is > 0 print the failed line and increment
fail_test_count, otherwise print the passed line.  The accumulator is
(fail_test_count, lines printed so far). -/
def runOne (acc : Int × List OutputLine) (t : TestResult) :
    Int × List OutputLine :=
  if t.ret > 0 then
    (acc.fst + 1, acc.snd ++ [.testFailed t.name t.ret])
  else
    (acc.fst, acc.snd ++ [.testPassed t.name])

/-- The Running phase: iterate the registry in declared order. -/
def ctest__run_tests_loop (tests : List TestResult) : Int × List OutputLine :=
  tests.foldl runOne (0, [])

/-- The failed-test count accumulated by the run. -/
def fail_test_count (tests : List TestResult) : Int :=
  (ctest__run_tests_loop tests).fst

/-- Outcome of ctest__run_tests.  When the TESTS macro is not defined the
function prints "ERROR: No tests are defined!" to stderr and calls exit(1)
without printing any further line: fatal carries that stderr text and the
process exit status.  Otherwise the run completes; completed carries the
boolean return value and every console line printed, in order. -/
inductive RunOutcome where
  | fatal (diag : String) (exit_code : Int)
  | completed (ret : Bool) (output : List OutputLine)
deriving Repr, DecidableEq

/-- ctest.h:125-172.  static bool ctest__run_tests(void).  The registry is
none when the caller never defined TESTS (the #ifndef TESTS branch at
ctest.h:127-131 runs), and some tests when TESTS expands to the given
ordered ADD list.  elapsed models end_time - start_time. -/
def ctest__run_tests (elapsed : Int) (registry : Option (List TestResult)) :
    RunOutcome :=
  match registry with
  | none => .fatal "ERROR: No tests are defined!" 1
  | some tests =>
    let test_count : Int := tests.length
    let r := ctest__run_tests_loop tests
    let pass_test_count := test_count - r.fst
    .completed
      (if r.fst > 0 then false else true)
      ([.info test_count] ++ r.snd ++
        [.summary r.fst pass_test_count test_count, .startAt, .duration elapsed])

/-- ctest.h:85-89.  CTEST_RUN_TESTS(): int main(void) { return
ctest__run_tests() ? 0 : 1; }.  When ctest__run_tests hits the fatal branch
the process exits with its exit(1) status before main can map the return. -/
def CTEST_RUN_TESTS_main (elapsed : Int)
    (registry : Option (List TestResult)) : Int :=
  match ctest__run_tests elapsed registry with
  | .fatal _ code => code
  | .completed ret _ => if ret then 0 else 1

/-- The boolean return of ctest__run_tests, when it returns at all. -/
def retOf : RunOutcome → Option Bool
  | .fatal _ _ => none
  | .completed ret _ => some ret

/-- The stdout/stderr console lines of an outcome (the fatal branch prints
only its stderr diag text, carried separately, and no structured line). -/
def outputOf : RunOutcome → List OutputLine
  | .fatal _ _ => []
  | .completed _ o => o

/-- Whether a console line is the final three-part summary. -/
def isSummary : OutputLine → Bool
  | .summary _ _ _ => true
  | _ => false

/-- The text of the summary line, following the printf format at
ctest.h:160-163 with the colour escape codes and leading label stripped:
"%d failed | %d passed (%d)". -/
def summaryText (failed passed total : Int) : String :=
  toString failed ++ " failed | " ++ toString passed ++ " passed (" ++
    toString total ++ ")"

/-- The per-test line the ADD block prints for one test. -/
def lineOf (t : TestResult) : OutputLine :=
  if t.ret > 0 then .testFailed t.name t.ret else .testPassed t.name

/-- The Running phase unfolded: starting from any accumulator, the fold over
the registry adds one to the fail counter per test whose return is > 0 and
appends the per-test lines in registry order. -/
lemma foldl_runOne_eq (tests : List TestResult) :
    ∀ (fc : Int) (out : List OutputLine),
    tests.foldl runOne (fc, out)
      = (fc + ((tests.filter (fun t => decide (t.ret > 0))).length : Int),
         out ++ tests.map lineOf) := by
  induction tests with
  | nil => intro fc out; simp
  | cons t ts ih =>
    intro fc out
    by_cases h : t.ret > 0
    · simp only [List.foldl_cons, runOne, h, if_pos, List.filter_cons,
        decide_eq_true_eq, List.map_cons, lineOf, if_true]
      rw [ih]
      simp [h]
      omega
    · simp only [List.foldl_cons, runOne, h, if_neg, List.filter_cons,
        decide_eq_true_eq, List.map_cons, lineOf]
      rw [ih]
      simp [h]

/-- The loop result in closed form. -/
lemma ctest__run_tests_loop_eq (tests : List TestResult) :
    ctest__run_tests_loop tests
      = (((tests.filter (fun t => decide (t.ret > 0))).length : Int),
         tests.map lineOf) := by
  simp [ctest__run_tests_loop, foldl_runOne_eq]

/-- fail_test_count counts exactly the tests whose returned value is > 0. -/
lemma fail_test_count_eq (tests : List TestResult) :
    fail_test_count tests
      = ((tests.filter (fun t => decide (t.ret > 0))).length : Int) := by
  simp [fail_test_count, ctest__run_tests_loop_eq]

/-- fail_test_count never goes negative. -/
lemma fail_test_count_nonneg (tests : List TestResult) :
    0 ≤ fail_test_count tests := by
  rw [fail_test_count_eq]; positivity

/-- A test body unfolded: starting from any accumulator, the generated
function adds one per false condition and appends the diagnostics of the
failing assertions in body order. -/
lemma foldl_runAssertion_eq (test_name : String) (body : List AssertCall) :
    ∀ (fc : Int) (out : List Diagnostic),
    body.foldl (runAssertion test_name) (fc, out)
      = (fc + ((body.filter (fun a => !a.cond)).length : Int),
         out ++ (body.filter (fun a => !a.cond)).map (diagOf test_name)) := by
  induction body with
  | nil => intro fc out; simp
  | cons a as ih =>
    intro fc out
    cases h : a.cond
    · simp only [List.foldl_cons, runAssertion, CTEST_ASSERT_MSG, ctest__assert,
        h, Bool.false_eq_true, if_neg, List.filter_cons, Bool.not_false]
      rw [ih]
      simp [diagOf]
      omega
    · simp only [List.foldl_cons, runAssertion, CTEST_ASSERT_MSG, ctest__assert,
        h, if_pos, List.filter_cons, Bool.not_true]
      rw [ih]
      simp

/-- The generated test function in closed form. -/
lemma CTEST_TEST_eq (test_name : String) (body : List AssertCall) :
    CTEST_TEST test_name body
      = (((body.filter (fun a => !a.cond)).length : Int),
         (body.filter (fun a => !a.cond)).map (diagOf test_name)) := by
  simp [CTEST_TEST, foldl_runAssertion_eq]

/-- A completed run in closed form: return value and full ordered output. -/
lemma ctest__run_tests_some (elapsed : Int) (tests : List TestResult) :
    ctest__run_tests elapsed (some tests)
      = .completed (if fail_test_count tests > 0 then false else true)
          ([.info (tests.length : Int)] ++ tests.map lineOf ++
           [.summary (fail_test_count tests)
              ((tests.length : Int) - fail_test_count tests) (tests.length : Int),
            .startAt, .duration elapsed]) := by
  simp [ctest__run_tests, fail_test_count, ctest__run_tests_loop_eq]

/-- Test bodies used by the concrete three-test scenario: A passes its one
assertion, B fails one of two, C fails both of its two. -/
def bodyA : List AssertCall := [⟨true, "1 == 1", "test_main.c", 10, ""⟩]

def bodyB : List AssertCall :=
  [⟨true, "2 == 2", "test_main.c", 20, ""⟩,
   ⟨false, "2 == 3", "test_main.c", 21, ""⟩]

def bodyC : List AssertCall :=
  [⟨false, "4 == 5", "test_main.c", 30, ""⟩,
   ⟨false, "5 == 6", "test_main.c", 31, ""⟩]

/-- The registry of the concrete scenario: the TESTS list ADD(A) ADD(B)
ADD(C), each entry carrying what its generated test function returns. -/
def registry3 : List TestResult :=
  [⟨"A", (CTEST_TEST "A" bodyA).fst⟩,
   ⟨"B", (CTEST_TEST "B" bodyB).fst⟩,
   ⟨"C", (CTEST_TEST "C" bodyC).fst⟩]

/-- Claim C1: ctest__run_tests returns true, and the main generated by
CTEST_RUN_TESTS exits with code 0, exactly when the failed-test count is 0;
otherwise it returns false and the process exit code is 1.  Stated for a
defined TESTS registry, the only case in which the function returns. -/
theorem run_tests_true_iff_no_failures (elapsed : Int) (tests : List TestResult) :
    (retOf (ctest__run_tests elapsed (some tests)) = some true
        ↔ fail_test_count tests = 0)
    ∧ CTEST_RUN_TESTS_main elapsed (some tests)
        = (if fail_test_count tests = 0 then 0 else 1) := by
  have h0 := fail_test_count_nonneg tests
  have h := ctest__run_tests_some elapsed tests
  constructor
  · rw [h]
    simp only [retOf]
    split_ifs with hf
    · simp only [Option.some_inj, Bool.false_eq_true, false_iff]
      omega
    · simp only [Option.some_inj, true_iff]
      omega
  · simp only [CTEST_RUN_TESTS_main, h]
    by_cases hz : fail_test_count tests = 0
    · rw [if_pos hz]
      have hf : ¬ fail_test_count tests > 0 := by omega
      simp [hf]
    · rw [if_neg hz]
      have hf : fail_test_count tests > 0 := by omega
      simp [hf]

/-- Claim C2: the function generated by CTEST_TEST returns exactly the
number of assertion calls in its body whose condition evaluated false, each
counted once; every assertion in the body is executed regardless of earlier
failures (each failing one contributes its diagnostic, in body order); a
body with zero assertion calls returns 0. -/
theorem test_fn_counts_false_assertions (test_name : String)
    (body : List AssertCall) :
    (CTEST_TEST test_name body).fst
        = ((body.filter (fun a => !a.cond)).length : Int)
    ∧ (CTEST_TEST test_name body).snd
        = (body.filter (fun a => !a.cond)).map (diagOf test_name)
    ∧ (CTEST_TEST test_name ([] : List AssertCall)).fst = 0 := by
  refine ⟨?_, ?_, rfl⟩ <;> simp [CTEST_TEST_eq]

/-- Claim C3 counterexample: an empty but defined Registry — TESTS defined
with zero ADD entries, the empty list in the model — does NOT fail fast:
the #ifndef TESTS branch at ctest.h:127-131 is skipped, the run completes,
the summary "0 failed | 0 passed (0)" is printed, and the process exits 0,
the silent empty success the claim rules out. -/
theorem empty_defined_registry_counterexample :
    ctest__run_tests 0 (some [])
        = .completed true [.info 0, .summary 0 0 0, .startAt, .duration 0]
    ∧ OutputLine.summary 0 0 0 ∈ outputOf (ctest__run_tests 0 (some []))
    ∧ outputOf (ctest__run_tests 0 (some [])) ≠ []
    ∧ CTEST_RUN_TESTS_main 0 (some []) = 0 := by
  refine ⟨by decide, by decide, by decide, by decide⟩

/-- Claim C3 as amended: when the caller never defines the TESTS macro —
the no-registration route the #ifndef TESTS guard catches — the runner
fails fast: it emits the no-tests diagnostic to stderr, the process exits
with the non-zero status 1, and no console line — in particular no summary
— is printed.  If TESTS is instead defined but expands to zero ADD
entries, the guard is bypassed and the run completes with the summary
(0 failed, 0 passed, 0 total) and exit code 0. -/
theorem no_tests_defined_fails_fast (elapsed : Int) :
    ctest__run_tests elapsed none = .fatal "ERROR: No tests are defined!" 1
    ∧ outputOf (ctest__run_tests elapsed none) = []
    ∧ CTEST_RUN_TESTS_main elapsed none = 1
    ∧ CTEST_RUN_TESTS_main elapsed none ≠ 0
    ∧ ctest__run_tests elapsed (some [])
        = .completed true [.info 0, .summary 0 0 0, .startAt, .duration elapsed]
    ∧ CTEST_RUN_TESTS_main elapsed (some []) = 0 := by
  refine ⟨rfl, rfl, rfl, ?_, ?_, rfl⟩
  · show (1 : Int) ≠ 0
    decide
  · show RunOutcome.completed true _ = _
    rfl

/-- Claim C4: ctest__assert returns true with no output and no side effect
when the condition is true; when it is false it emits exactly one diagnostic
to stderr carrying the file, the line, the enclosing test name, the literal
condition text and the formatted optional message, and returns false. -/
theorem assert_true_silent_false_diagnostic
    (expression file test_name : String) (line : Int) (msg : String) :
    ctest__assert true expression file test_name line msg = (true, [])
    ∧ ctest__assert false expression file test_name line msg
        = (false, [⟨file, line, test_name, expression, msg⟩]) :=
  ⟨rfl, rfl⟩

/-- Claim C5 counterexample: on the registry of three tests where A passes,
B fails one assertion and C fails two assertions, the runner counts TWO
failed tests (B and C each return a positive count), so the summary reads
"2 failed | 1 passed (3)", not "1 failed | 2 passed (3)" as the claim
states; the exit code is 1 as claimed. -/
theorem reporting_summary_counterexample :
    fail_test_count registry3 = 2
    ∧ outputOf (ctest__run_tests 0 (some registry3))
        = [.info 3, .testPassed "A", .testFailed "B" 1, .testFailed "C" 2,
           .summary 2 1 3, .startAt, .duration 0]
    ∧ OutputLine.summary 1 2 3 ∉ outputOf (ctest__run_tests 0 (some registry3))
    ∧ summaryText 2 1 3 ≠ "1 failed | 2 passed (3)" := by
  refine ⟨by decide, by decide, by decide, by decide⟩

/-- Claim C5 as amended: the Reporting phase prints the summary with pass
count = total count − fail count; on the concrete registry of three tests
where A passes, B fails one assertion and C fails two, two tests fail, the
summary arguments are (2, 1, 3), its text reads "2 failed | 1 passed (3)"
and the process exit code is 1. -/
theorem reporting_summary_pass_eq_total_minus_fail (elapsed : Int)
    (tests : List TestResult) :
    (OutputLine.summary (fail_test_count tests)
        ((tests.length : Int) - fail_test_count tests) (tests.length : Int)
      ∈ outputOf (ctest__run_tests elapsed (some tests)))
    ∧ fail_test_count registry3 = 2
    ∧ outputOf (ctest__run_tests 0 (some registry3))
        = [.info 3, .testPassed "A", .testFailed "B" 1, .testFailed "C" 2,
           .summary 2 1 3, .startAt, .duration 0]
    ∧ summaryText 2 1 3 = "2 failed | 1 passed (3)"
    ∧ CTEST_RUN_TESTS_main 0 (some registry3) = 1 := by
  refine ⟨?_, by decide, by decide, by decide, by decide⟩
  rw [ctest__run_tests_some]
  simp [outputOf]

/-- Claim C6: a run over a defined registry invokes every registered test
exactly once and in declared order — the per-test lines are precisely the
map of the registry in order, one line per test, with no early exit — and
the Reporting lines come only after the whole registry has been iterated. -/
theorem runner_iterates_registry_in_order (elapsed : Int)
    (tests : List TestResult) :
    outputOf (ctest__run_tests elapsed (some tests))
      = [.info (tests.length : Int)] ++ tests.map lineOf ++
        [.summary (fail_test_count tests)
            ((tests.length : Int) - fail_test_count tests) (tests.length : Int),
         .startAt, .duration elapsed]
    ∧ (tests.map lineOf).length = tests.length := by
  rw [ctest__run_tests_some]
  exact ⟨rfl, by simp⟩

/-- Claim C7 counterexample: a test returning -1 has a non-zero returned
value, yet the runner neither prints the failed diagnostic nor increments
the failed-test count — it prints the passed line, refuting the claim that
any non-zero return is classified as failed. -/
theorem nonzero_return_counterexample :
    (-1 : Int) ≠ 0
    ∧ runOne (0, []) ⟨"t", -1⟩ = (0, [.testPassed "t"])
    ∧ fail_test_count [⟨"t", -1⟩] = 0 := by
  refine ⟨by decide, by decide, by decide⟩

/-- Claim C7 as amended: the runner classifies a test as failed exactly
when its returned value is strictly positive: the failed-test count equals
the number of tests with a strictly positive return, and each ADD block
prints the failed diagnostic and increments the counter precisely when the
return is > 0, printing the passed line otherwise. -/
theorem positive_return_counts_failed (tests : List TestResult) :
    fail_test_count tests
        = ((tests.filter (fun t => decide (t.ret > 0))).length : Int)
    ∧ ∀ (fc : Int) (out : List OutputLine) (t : TestResult),
        runOne (fc, out) t
          = if t.ret > 0 then (fc + 1, out ++ [.testFailed t.name t.ret])
            else (fc, out ++ [.testPassed t.name]) :=
  ⟨fail_test_count_eq tests, fun _ _ _ => rfl⟩

/-- Claim C8: each equality wrapper produces exactly the behaviour of the
base assertion on the equivalent hand-written condition — the same counter
increment and the same diagnostic — and the increment happens exactly when
the values (resp. strings) differ. -/
theorem eq_wrappers_equiv_base (fc a b : Int)
    (sa sb ta tb file test_name : String) (line : Int) (msg : String) :
    CTEST_ASSERT_EQ fc a b ta tb file test_name line
        = CTEST_ASSERT fc (a == b) (eqCondText ta tb) file test_name line
    ∧ CTEST_ASSERT_EQ_MSG fc a b ta tb file test_name line msg
        = CTEST_ASSERT_MSG fc (a == b) (eqCondText ta tb) file test_name line msg
    ∧ CTEST_ASSERT_EQ_STR fc sa sb ta tb file test_name line
        = CTEST_ASSERT fc (strcmp sa sb == 0) (strCondText ta tb) file test_name line
    ∧ CTEST_ASSERT_EQ_STR_MSG fc sa sb ta tb file test_name line msg
        = CTEST_ASSERT_MSG fc (strcmp sa sb == 0) (strCondText ta tb) file test_name
            line msg
    ∧ (CTEST_ASSERT_EQ fc a b ta tb file test_name line).fst
        = fc + (if a = b then 0 else 1)
    ∧ (CTEST_ASSERT_EQ_STR fc sa sb ta tb file test_name line).fst
        = fc + (if sa = sb then 0 else 1) := by
  refine ⟨rfl, rfl, rfl, rfl, ?_, ?_⟩
  · by_cases h : a = b <;>
      simp [CTEST_ASSERT_EQ, CTEST_ASSERT, ctest__assert, h]
  · by_cases h : sa = sb
    · simp [CTEST_ASSERT_EQ_STR, CTEST_ASSERT, ctest__assert, strcmp, h]
    · by_cases h2 : sa < sb <;>
        simp [CTEST_ASSERT_EQ_STR, CTEST_ASSERT, ctest__assert, strcmp, h, h2]

/-- Claim C9: the evaluator ctest__assert touches no counter and no shared
state — its return value is exactly the condition it was given and its only
effect is the diagnostic output — while the increment of the enclosing
failure counter is performed exclusively by the calling macro from the
boolean return value. -/
theorem assert_evaluator_frame (result : Bool)
    (expression file test_name : String) (line : Int) (msg : String)
    (fc : Int) :
    (ctest__assert result expression file test_name line msg).fst = result
    ∧ (CTEST_ASSERT_MSG fc result expression file test_name line msg).fst
        = fc + (if (ctest__assert result expression file test_name line msg).fst
                then 0 else 1)
    ∧ (CTEST_ASSERT_MSG fc result expression file test_name line msg).snd
        = (ctest__assert result expression file test_name line msg).snd
    ∧ (CTEST_ASSERT fc result expression file test_name line).fst
        = fc + (if (ctest__assert result expression file test_name line "").fst
                then 0 else 1) := by
  cases result <;> simp [ctest__assert, CTEST_ASSERT_MSG, CTEST_ASSERT]

/-- Claim C10: a test whose return value is zero or negative is classified
as passed: the runner prints the per-test passed line and does not
increment the failed-test count. -/
theorem nonpositive_return_passed (fc : Int) (out : List OutputLine)
    (t : TestResult) (h : t.ret ≤ 0) :
    runOne (fc, out) t = (fc, out ++ [.testPassed t.name]) := by
  have hn : ¬ t.ret > 0 := by omega
  simp [runOne, hn]

/-- Witness for claim C10 at the concrete test returning -5. -/
theorem nonpositive_return_passed_witness :
    (-5 : Int) ≤ 0
    ∧ runOne (0, []) ⟨"neg", -5⟩ = (0, [.testPassed "neg"]) :=
  ⟨by decide, nonpositive_return_passed 0 [] ⟨"neg", -5⟩ (by decide)⟩

end Ctest
